import Mathlib

/-!
Shallow embedding of `src/server.py`, a minimal static-file HTTP server
built on Python's `http.server.SimpleHTTPRequestHandler`.

The source program:
* registers two MIME mappings at startup
  (`mimetypes.add_type('application/javascript', '.js')`,
  `mimetypes.add_type('text/css', '.css')`);
* subclasses `SimpleHTTPRequestHandler`, overriding
  - `end_headers` to append the three CORS headers and, when the raw
    request target `self.path` ends in `'.js'`, an extra
    `Content-Type: application/javascript` header line, before calling the
    base `end_headers`;
  - `do_OPTIONS` to answer `200` with an empty body;
* runs `serve_forever` inside `with TCPServer(...)`, catching
  `KeyboardInterrupt` to print a notice and close the socket.

The embedding models the observable response of the handler for each
request method: the filesystem is an abstract map from resolved paths to
file bytes; header buffering is explicit list passing, mirroring how
`send_header` appends lines to the handler's buffer and `end_headers`
flushes it.  The base handler's `Server` and `Date` header lines (emitted
by `send_response` from wall-clock state) are omitted; no claim mentions
them.  HTTP/1.x framing is assumed throughout.
-/

namespace Server

/-- A header line on the wire: (field name, field value). -/
abbrev Header := String × String

/-- Observable HTTP response: status code, header lines in emission order,
body bytes. -/
structure Response where
  status : Nat
  headers : List Header
  body : List UInt8
deriving DecidableEq, Repr

/-- Abstract filesystem under the serving root: maps a resolved request
path to the file's on-disk bytes, `none` when no such file exists. -/
abbrev Fs := String → Option (List UInt8)

/-- Request methods reaching the handler.  `CustomHTTPRequestHandler`
defines `do_OPTIONS`; `do_GET` and `do_HEAD` are inherited from
`SimpleHTTPRequestHandler`; any other method (POST included) has no
`do_*` attribute, so `BaseHTTPRequestHandler.handle_one_request` answers
`501 Unsupported method`. -/
inductive Method
  | GET
  | HEAD
  | POST
  | OPTIONS
deriving DecidableEq, Repr

/-- Python's `str.endswith`: `s` ends with `suffix`.  (Defined over the
character list so that the kernel can evaluate it on concrete strings.) -/
def endswith (s suffix : String) : Bool :=
  suffix.data.reverse.isPrefixOf s.data.reverse

/-- ASCII byte encoding of a string (all strings this program emits are
ASCII, where UTF-8 coincides with the code points). -/
def asciiBytes (s : String) : List UInt8 :=
  s.data.map (fun c => UInt8.ofNat c.toNat)

/-- Characterwise lowercasing, as `ext.lower()` in
`mimetypes.guess_type`. -/
def strToLower (s : String) : String :=
  String.mk (s.data.map Char.toLower)

/-! ### MIME table (`mimetypes` module) -/

/-- `mimetypes.add_type(ty, ext)`: sets the mapping for `ext` to `ty`,
replacing any previous entry for that extension. -/
def add_type (ty ext : String) (table : List (String × String)) :
    List (String × String) :=
  (ext, ty) :: table.filter (fun p => p.1 ≠ ext)

/-- Lookup of an extension in a MIME table (first matching entry). -/
def lookupExt (ext : String) (table : List (String × String)) : Option String :=
  (table.find? (fun p => p.1 == ext)).map Prod.snd

/-- A representative slice of the host environment's default MIME database
(the Python-3.9+ stdlib default maps `.js` to `text/javascript` before the
program's `add_type` call overrides it). -/
def baseMimeTable : List (String × String) :=
  [(".html", "text/html"), (".htm", "text/html"), (".txt", "text/plain"),
   (".js", "text/javascript"), (".css", "text/css"),
   (".json", "application/json"), (".png", "image/png")]

/-- The two `mimetypes.add_type` calls executed at startup
(`server.py` lines 7-8), applied to whatever base table the host provides. -/
def startupMime (base : List (String × String)) : List (String × String) :=
  add_type "text/css" ".css" (add_type "application/javascript" ".js" base)

/-- The global MIME table in effect once the server is running. -/
def mimeTable : List (String × String) := startupMime baseMimeTable

/-- Suffix of `l` after the last occurrence of `c` (all of `l` when `c`
does not occur). -/
def afterLast (c : Char) (l : List Char) : List Char :=
  (l.reverse.takeWhile (fun x => x ≠ c)).reverse

/-- `posixpath.splitext`-style extension of a path: the part of the
basename from its last dot (inclusive); leading dots of the basename do
not start an extension. -/
def extOf (p : String) : String :=
  let bn := afterLast '/' p.toList
  let rest := bn.dropWhile (fun ch => ch = '.')
  if rest.contains '.' then String.mk ('.' :: afterLast '.' rest) else ""

/-- `SimpleHTTPRequestHandler.guess_type` after the startup `add_type`
calls: resolve the lowercased extension through the global table, falling
back to `application/octet-stream`. -/
def guess_type (path : String) : String :=
  match lookupExt (strToLower (extOf path)) mimeTable with
  | some ty => ty
  | none => "application/octet-stream"

/-- Prefix of `s` before the first occurrence of `c`. -/
def dropFrom (c : Char) (s : String) : String :=
  String.mk (s.toList.takeWhile (fun x => x ≠ c))

/-- The query/fragment stripping performed by
`SimpleHTTPRequestHandler.translate_path`: the request target is cut at
the first `'?'`, then at the first `'#'`; the remainder is the path
resolved against the serving root (modelled as the key into `Fs`). -/
def translate_path (target : String) : String :=
  dropFrom '#' (dropFrom '?' target)

/-! ### Header emission -/

/-- The three headers injected by the overridden `end_headers`
(`server.py` lines 13-15), in emission order. -/
def corsHeaders : List Header :=
  [("Access-Control-Allow-Origin", "*"),
   ("Access-Control-Allow-Methods", "GET, POST, OPTIONS"),
   ("Access-Control-Allow-Headers", "Content-Type")]

/-- `CustomHTTPRequestHandler.end_headers` (`server.py` lines 11-19):
given the raw request target `self.path` and the already-buffered header
lines, append the CORS headers and, when the raw target ends in `'.js'`,
one extra `Content-Type: application/javascript` line, then flush
(the flush is the returned list). -/
def end_headers (path : String) (buffered : List Header) : List Header :=
  buffered ++ corsHeaders ++
    (if endswith path ".js" then
       [("Content-Type", "application/javascript")]
     else [])

/-- Body of `BaseHTTPRequestHandler.send_error`'s generated error page
(the exact HTML is irrelevant to every claim; only that it is produced
from the code and message). -/
def errorBody (code : Nat) (message : String) : List UInt8 :=
  asciiBytes ("Error response: " ++ toString code ++ " " ++ message)

/-- `BaseHTTPRequestHandler.send_error`: status line, error content type,
`Connection: close`, content length, then `end_headers` (which, being the
overridden one, injects the CORS headers), then the error page body. -/
def send_error_resp (target : String) (code : Nat) (message : String) :
    Response :=
  { status := code
    headers := end_headers target
      [("Content-Type", "text/html;charset=utf-8"), ("Connection", "close"),
       ("Content-Length", toString (errorBody code message).length)]
    body := errorBody code message }

/-- `SimpleHTTPRequestHandler.do_GET`: resolve the target under the root;
if a file is there, answer 200 with the inferred content type, the
content length, the injected headers, and the file bytes; otherwise
`send_error(404)`. -/
def do_GET (fs : Fs) (target : String) : Response :=
  match fs (translate_path target) with
  | some bytes =>
      { status := 200
        headers := end_headers target
          [("Content-Type", guess_type (translate_path target)),
           ("Content-Length", toString bytes.length)]
        body := bytes }
  | none => send_error_resp target 404 "File not found"

/-- `SimpleHTTPRequestHandler.do_HEAD`: same status and headers as
`do_GET`, but no body is written (`send_error` also suppresses the error
page body when the command is HEAD). -/
def do_HEAD (fs : Fs) (target : String) : Response :=
  { do_GET fs target with body := [] }

/-- `CustomHTTPRequestHandler.do_OPTIONS` (`server.py` lines 21-24):
`send_response(200)` then `end_headers()`; no body is written and neither
the filesystem nor `translate_path` is consulted. -/
def do_OPTIONS (target : String) : Response :=
  { status := 200, headers := end_headers target [], body := [] }

/-- Dispatch of one request, as `BaseHTTPRequestHandler.handle_one_request`
does via the `do_<METHOD>` attributes of `CustomHTTPRequestHandler`:
GET and HEAD are inherited file serving, OPTIONS is the override, POST has
no handler method and is answered `501 Unsupported method`. -/
def handle_request (fs : Fs) (m : Method) (target : String) : Response :=
  match m with
  | .GET => do_GET fs target
  | .HEAD => do_HEAD fs target
  | .OPTIONS => do_OPTIONS target
  | .POST => send_error_resp target 501 "Unsupported method ('POST')"

/-- The serve loop: each incoming request is handled independently; no
per-request outcome affects the handling of later requests. -/
def serve (fs : Fs) (reqs : List (Method × String)) : List Response :=
  reqs.map (fun r => handle_request fs r.1 r.2)

/-- The `Content-Type` header lines of a response, in emission order. -/
def ctLines (r : Response) : List Header :=
  r.headers.filter (fun h => h.1 == "Content-Type")

/-! ### Process-level control flow (`server.py` lines 35-40) -/

/-- How `serve_forever` terminates: it loops until an exception reaches
it; an external interrupt (SIGINT) surfaces as `KeyboardInterrupt`; any
other exception propagates. -/
inductive ServeEvent
  | keyboardInterrupt
  | otherError (name : String)
deriving DecidableEq, Repr

/-- Outcome of the whole `with TCPServer(...)` block. -/
structure MainResult where
  printed : List String
  socketClosed : Bool
  exitCode : Nat
deriving DecidableEq, Repr

/-- `try: httpd.serve_forever() except KeyboardInterrupt: ...`
(`server.py` lines 36-40): a `KeyboardInterrupt` is caught — the shutdown
notice is printed and `server_close()` releases the socket; any other
exception escapes uncaught.  Result: (lines printed, uncaught exception). -/
def tryServe : ServeEvent → List String × Option String
  | .keyboardInterrupt => (["\nServer stopped."], none)
  | .otherError n => ([], some n)

/-- The `with socketserver.TCPServer(...) as httpd:` block: its `__exit__`
calls `server_close()` on every path, so the listening socket is released
whether the body returned or raised; an uncaught exception makes the
process exit nonzero, a normal return exits 0. -/
def runMain (e : ServeEvent) : MainResult :=
  let r := tryServe e
  { printed := r.1
    socketClosed := true
    exitCode := match r.2 with | none => 0 | some _ => 1 }

/-! ### Concrete demonstration filesystem -/

/-- Bytes of a small HTML file. -/
def demoContent : List UInt8 := asciiBytes "<html></html>"

/-- Bytes of a small JavaScript file. -/
def jsContent : List UInt8 := asciiBytes "console.log(1);"

/-- Bytes of a small CSS file. -/
def cssContent : List UInt8 := asciiBytes "body \x7b color: red \x7d"

/-- A serving root holding `index.html`, `app.js` and `style.css`. -/
def demoFs : Fs := fun p =>
  if p = "/index.html" then some demoContent
  else if p = "/app.js" then some jsContent
  else if p = "/style.css" then some cssContent
  else none

/-! ### Helper lemmas -/

/-- Every header injected by the override is in the flushed header list. -/
theorem mem_end_headers_of_mem_cors {x : Header} (t : String)
    (buf : List Header) (h : x ∈ corsHeaders) : x ∈ end_headers t buf := by
  unfold end_headers
  exact List.mem_append_left _ (List.mem_append_right _ h)

/-- Whatever the method and outcome, the response's header list is the
flush of some buffer through the overridden `end_headers` for the raw
request target. -/
theorem handle_headers_shape (fs : Fs) (m : Method) (t : String) :
    ∃ buf, (handle_request fs m t).headers = end_headers t buf := by
  cases m with
  | GET =>
    cases h : fs (translate_path t) with
    | none =>
        exact ⟨[("Content-Type", "text/html;charset=utf-8"),
                ("Connection", "close"),
                ("Content-Length",
                  toString (errorBody 404 "File not found").length)],
               by simp [handle_request, do_GET, h, send_error_resp]⟩
    | some bytes =>
        exact ⟨[("Content-Type", guess_type (translate_path t)),
                ("Content-Length", toString bytes.length)],
               by simp [handle_request, do_GET, h]⟩
  | HEAD =>
    cases h : fs (translate_path t) with
    | none =>
        exact ⟨[("Content-Type", "text/html;charset=utf-8"),
                ("Connection", "close"),
                ("Content-Length",
                  toString (errorBody 404 "File not found").length)],
               by simp [handle_request, do_HEAD, do_GET, h, send_error_resp]⟩
    | some bytes =>
        exact ⟨[("Content-Type", guess_type (translate_path t)),
                ("Content-Length", toString bytes.length)],
               by simp [handle_request, do_HEAD, do_GET, h]⟩
  | POST =>
    exact ⟨[("Content-Type", "text/html;charset=utf-8"),
            ("Connection", "close"),
            ("Content-Length",
              toString (errorBody 501 "Unsupported method ('POST')").length)],
           rfl⟩
  | OPTIONS => exact ⟨[], rfl⟩

/-- The CORS headers contribute no `Content-Type` header line. -/
theorem cors_filter_ct :
    corsHeaders.filter (fun h => h.1 == "Content-Type") = [] := by decide

/-- When the raw request target ends in `'.js'`, flushing through the
overridden `end_headers` appends exactly one `Content-Type` line — the
forced `application/javascript` — after whatever `Content-Type` lines the
buffer already held. -/
theorem ctLines_end_headers_js (t : String) (buf : List Header)
    (hjs : endswith t ".js" = true) :
    (end_headers t buf).filter (fun h => h.1 == "Content-Type") =
      buf.filter (fun h => h.1 == "Content-Type") ++
        [("Content-Type", "application/javascript")] := by
  simp [end_headers, hjs, List.filter_append, cors_filter_ct]

/-- `find?` is unaffected by filtering with a predicate that everything
satisfying the searched-for predicate also satisfies. -/
theorem find?_filter_of_imp {α : Type} (p q : α → Bool) (l : List α)
    (h : ∀ x, p x = true → q x = true) :
    (l.filter q).find? p = l.find? p := by
  induction l with
  | nil => rfl
  | cons a l ih =>
    cases hq : q a with
    | true =>
      rw [List.filter_cons_of_pos hq]
      cases hp : p a with
      | true => rw [List.find?_cons_of_pos _ hp, List.find?_cons_of_pos _ hp]
      | false =>
        rw [List.find?_cons_of_neg _ (by simp [hp]),
            List.find?_cons_of_neg _ (by simp [hp])]
        exact ih
    | false =>
      have hp : p a = false := by
        cases hpa : p a with
        | false => rfl
        | true => exact absurd (h a hpa) (by simp [hq])
      rw [List.filter_cons_of_neg (by simp [hq]), ih,
          List.find?_cons_of_neg _ (by simp [hp])]

/-- `mimetypes.add_type` makes the added extension resolve to the added
type. -/
theorem lookupExt_add_type_self (ty ext : String)
    (tbl : List (String × String)) :
    lookupExt ext (add_type ty ext tbl) = some ty := by
  simp [lookupExt, add_type, List.find?_cons_of_pos]

/-- `mimetypes.add_type` leaves the resolution of every other extension
unchanged. -/
theorem lookupExt_add_type_other (ty e ext : String)
    (tbl : List (String × String)) (h : ext ≠ e) :
    lookupExt ext (add_type ty e tbl) = lookupExt ext tbl := by
  unfold lookupExt add_type
  rw [List.find?_cons_of_neg _ (by simp [Ne.symm h]),
      find?_filter_of_imp]
  intro x hx
  simp only [beq_iff_eq] at hx
  simp [hx, h]

/-! ### Claims -/

/-- C1: every HTTP response the server sends, regardless of request method
or path, carries the three CORS headers with exactly the values
`Access-Control-Allow-Origin: *`,
`Access-Control-Allow-Methods: GET, POST, OPTIONS` and
`Access-Control-Allow-Headers: Content-Type`, because every response is
finalized through the shared overridden `end_headers`. -/
theorem cors_headers_every_response (fs : Fs) (m : Method) (t : String) :
    ("Access-Control-Allow-Origin", "*") ∈ (handle_request fs m t).headers ∧
    ("Access-Control-Allow-Methods", "GET, POST, OPTIONS") ∈
      (handle_request fs m t).headers ∧
    ("Access-Control-Allow-Headers", "Content-Type") ∈
      (handle_request fs m t).headers := by
  obtain ⟨buf, hb⟩ := handle_headers_shape fs m t
  rw [hb]
  exact ⟨mem_end_headers_of_mem_cors t buf (by decide),
         mem_end_headers_of_mem_cors t buf (by decide),
         mem_end_headers_of_mem_cors t buf (by decide)⟩

/-- C3: an OPTIONS request to any path is answered with status exactly
200 and an empty body, the CORS headers are present, and the response is
computed without consulting the filesystem (it is identical for any two
filesystems, since `do_OPTIONS` neither resolves the path nor reads a
file). -/
theorem options_preflight_contract (fs fs2 : Fs) (t : String) :
    handle_request fs .OPTIONS t = handle_request fs2 .OPTIONS t ∧
    (handle_request fs .OPTIONS t).status = 200 ∧
    (handle_request fs .OPTIONS t).body = [] ∧
    ("Access-Control-Allow-Origin", "*") ∈
      (handle_request fs .OPTIONS t).headers ∧
    ("Access-Control-Allow-Methods", "GET, POST, OPTIONS") ∈
      (handle_request fs .OPTIONS t).headers ∧
    ("Access-Control-Allow-Headers", "Content-Type") ∈
      (handle_request fs .OPTIONS t).headers :=
  ⟨rfl, rfl, rfl,
   mem_end_headers_of_mem_cors t [] (by decide),
   mem_end_headers_of_mem_cors t [] (by decide),
   mem_end_headers_of_mem_cors t [] (by decide)⟩

/-- C4: a GET request for a path whose file exists under the serving root
is answered with status 200 and a body whose bytes are exactly the file's
on-disk contents. -/
theorem get_existing_file_served (fs : Fs) (t : String) (bytes : List UInt8)
    (h : fs (translate_path t) = some bytes) :
    (handle_request fs .GET t).status = 200 ∧
    (handle_request fs .GET t).body = bytes := by
  simp [handle_request, do_GET, h]

/-- Witness for C4 at `GET /index.html` on the demonstration root. -/
theorem get_existing_file_served_witness :
    demoFs (translate_path "/index.html") = some demoContent ∧
    (handle_request demoFs .GET "/index.html").status = 200 ∧
    (handle_request demoFs .GET "/index.html").body = demoContent :=
  ⟨by decide,
   get_existing_file_served demoFs "/index.html" demoContent (by decide)⟩

/-- C5: a GET request for a path with no corresponding file is answered
404, and this per-request outcome does not terminate the serving loop:
the remaining requests are served exactly as they would have been. -/
theorem get_missing_file_404_server_continues (fs : Fs) (t : String)
    (h : fs (translate_path t) = none) :
    (handle_request fs .GET t).status = 404 ∧
    ∀ rest : List (Method × String),
      serve fs ((Method.GET, t) :: rest) =
        handle_request fs Method.GET t :: serve fs rest := by
  constructor
  · simp [handle_request, do_GET, h, send_error_resp]
  · intro rest
    rfl

/-- Witness for C5 at `GET /missing.txt` on the demonstration root. -/
theorem get_missing_file_404_server_continues_witness :
    demoFs (translate_path "/missing.txt") = none ∧
    (handle_request demoFs .GET "/missing.txt").status = 404 ∧
    serve demoFs [(Method.GET, "/missing.txt"), (Method.GET, "/index.html")] =
      handle_request demoFs Method.GET "/missing.txt" ::
        serve demoFs [(Method.GET, "/index.html")] := by
  have h := get_missing_file_404_server_continues demoFs "/missing.txt"
    (by decide)
  exact ⟨by decide, h.1, h.2 _⟩

/-- C2: for every request whose path (the raw target, as the code tests
it) ends in `.js`, a 200 response carries a `Content-Type` header line
with exactly the value `application/javascript`, and that forced line is
the last `Content-Type` line emitted — the override takes precedence over
whatever the default resolver buffered earlier. -/
theorem js_request_content_type_override (fs : Fs) (m : Method) (t : String)
    (hjs : endswith t ".js" = true)
    (_h200 : (handle_request fs m t).status = 200) :
    ("Content-Type", "application/javascript") ∈
      (handle_request fs m t).headers ∧
    (ctLines (handle_request fs m t)).getLast? =
      some ("Content-Type", "application/javascript") := by
  obtain ⟨buf, hb⟩ := handle_headers_shape fs m t
  constructor
  · rw [hb]
    unfold end_headers
    rw [if_pos hjs]
    exact List.mem_append_right _ (by simp)
  · unfold ctLines
    rw [hb, ctLines_end_headers_js t buf hjs]
    exact List.getLast?_concat _

/-- Witness for C2 at `GET /app.js` on the demonstration root. -/
theorem js_request_content_type_override_witness :
    endswith "/app.js" ".js" = true ∧
    (handle_request demoFs .GET "/app.js").status = 200 ∧
    ("Content-Type", "application/javascript") ∈
      (handle_request demoFs .GET "/app.js").headers ∧
    (ctLines (handle_request demoFs .GET "/app.js")).getLast? =
      some ("Content-Type", "application/javascript") := by
  have h := js_request_content_type_override demoFs .GET "/app.js"
    (by decide) (by decide)
  exact ⟨by decide, by decide, h.1, h.2⟩

/-- C6 counterexample: POST is not served like GET.  On the demonstration
root, `GET /index.html` returns 200 with the file bytes, while
`POST /index.html` — for which the handler defines no method — returns
`501 Unsupported method` and not the file. -/
theorem post_not_file_served_counterexample :
    handle_request demoFs .POST "/index.html" ≠
      handle_request demoFs .GET "/index.html" ∧
    (handle_request demoFs .GET "/index.html").status = 200 ∧
    (handle_request demoFs .GET "/index.html").body = demoContent ∧
    (handle_request demoFs .POST "/index.html").status = 501 ∧
    (handle_request demoFs .POST "/index.html").body ≠ demoContent := by
  decide

/-- C6 (amended): POST requests are not resolved to files; the handler
inherits no `do_POST`, so every POST receives status 501
(`Unsupported method`), whatever the path and filesystem. -/
theorem post_always_501 (fs : Fs) (t : String) :
    (handle_request fs .POST t).status = 501 := rfl

/-- C7: the startup `mimetypes.add_type` calls make `.js` resolve to
`application/javascript` and `.css` to `text/css` in the global table,
leave every other extension's resolution unchanged, and consequently
`GET /style.css` on the demonstration root returns 200 with a
`Content-Type: text/css` header. -/
theorem startup_mime_registration (base : List (String × String))
    (ext : String) (h1 : ext ≠ ".js") (h2 : ext ≠ ".css") :
    lookupExt ".js" (startupMime base) = some "application/javascript" ∧
    lookupExt ".css" (startupMime base) = some "text/css" ∧
    lookupExt ext (startupMime base) = lookupExt ext base ∧
    (handle_request demoFs .GET "/style.css").status = 200 ∧
    ("Content-Type", "text/css") ∈
      (handle_request demoFs .GET "/style.css").headers := by
  refine ⟨?_, ?_, ?_, by decide, by decide⟩
  · rw [startupMime, lookupExt_add_type_other _ _ _ _ (by decide),
        lookupExt_add_type_self]
  · exact lookupExt_add_type_self _ _ _
  · rw [startupMime, lookupExt_add_type_other _ _ _ _ h2,
        lookupExt_add_type_other _ _ _ _ h1]

/-- Witness for C7 at extension `.html` over the default base table. -/
theorem startup_mime_registration_witness :
    (".html" : String) ≠ ".js" ∧ (".html" : String) ≠ ".css" ∧
    lookupExt ".js" (startupMime baseMimeTable) =
      some "application/javascript" ∧
    lookupExt ".css" (startupMime baseMimeTable) = some "text/css" ∧
    lookupExt ".html" (startupMime baseMimeTable) =
      lookupExt ".html" baseMimeTable ∧
    (handle_request demoFs .GET "/style.css").status = 200 ∧
    ("Content-Type", "text/css") ∈
      (handle_request demoFs .GET "/style.css").headers := by
  have h := startup_mime_registration baseMimeTable ".html"
    (by decide) (by decide)
  exact ⟨by decide, by decide, h.1, h.2.1, h.2.2.1, h.2.2.2.1, h.2.2.2.2⟩

/-- C9: the `.js` override tests the raw request target (query string
included).  `GET /app.js?v=1` for the existing `app.js` succeeds but gets
only the single library-inferred `Content-Type` line — no forced line is
injected — while `GET /app.js` gets two lines, and an OPTIONS request
whose target ends in `.js` (no body at all) does receive the forced
`application/javascript` line. -/
theorem js_override_uses_raw_target :
    endswith "/app.js?v=1" ".js" = false ∧
    (handle_request demoFs .GET "/app.js?v=1").status = 200 ∧
    (handle_request demoFs .GET "/app.js?v=1").body = jsContent ∧
    ctLines (handle_request demoFs .GET "/app.js?v=1") =
      [("Content-Type", "application/javascript")] ∧
    ctLines (handle_request demoFs .GET "/app.js") =
      [("Content-Type", "application/javascript"),
       ("Content-Type", "application/javascript")] ∧
    (handle_request demoFs .OPTIONS "/anything.js").body = [] ∧
    ctLines (handle_request demoFs .OPTIONS "/anything.js") =
      [("Content-Type", "application/javascript")] := by
  decide

/-- C10: for a 200 response to a GET whose raw target ends in `.js` and
whose file exists, the forced `application/javascript` line is emitted in
addition to — not instead of — the library-inferred `Content-Type`, so
the response contains exactly two `Content-Type` lines: the inferred one
followed by the injected one. -/
theorem js_file_two_content_type_lines (fs : Fs) (t : String)
    (bytes : List UInt8) (hf : fs (translate_path t) = some bytes)
    (hjs : endswith t ".js" = true) :
    (handle_request fs .GET t).status = 200 ∧
    ctLines (handle_request fs .GET t) =
      [("Content-Type", guess_type (translate_path t)),
       ("Content-Type", "application/javascript")] := by
  constructor
  · simp [handle_request, do_GET, hf]
  · have hh : (handle_request fs .GET t).headers =
        end_headers t
          [("Content-Type", guess_type (translate_path t)),
           ("Content-Length", toString bytes.length)] := by
      simp [handle_request, do_GET, hf]
    unfold ctLines
    rw [hh, ctLines_end_headers_js t _ hjs]
    simp [List.filter_cons_of_pos, List.filter_cons_of_neg]

/-- Witness for C10 at `GET /app.js` on the demonstration root (where the
library-inferred type is also `application/javascript`, thanks to the
startup MIME registration). -/
theorem js_file_two_content_type_lines_witness :
    demoFs (translate_path "/app.js") = some jsContent ∧
    endswith "/app.js" ".js" = true ∧
    (handle_request demoFs .GET "/app.js").status = 200 ∧
    ctLines (handle_request demoFs .GET "/app.js") =
      [("Content-Type", guess_type (translate_path "/app.js")),
       ("Content-Type", "application/javascript")] := by
  have h := js_file_two_content_type_lines demoFs "/app.js" jsContent
    (by decide) (by decide)
  exact ⟨by decide, by decide, h.1, h.2⟩

/-- C8: an external interrupt while serving is treated as a normal
shutdown: the serve loop ends (no further connections are accepted), the
shutdown notice is printed, the listening socket is released, and the
process exit code is 0. -/
theorem interrupt_clean_shutdown :
    runMain ServeEvent.keyboardInterrupt =
      { printed := ["\nServer stopped."], socketClosed := true,
        exitCode := 0 } := rfl

end Server
